import Mathlib

open Matrix

/-!
Verification development for the FisherBlock library (`fisher_blocks.py`).

The Python source is shallowly embedded: tensors of rational entries stand in
for floating-point arrays, Python exceptions become `Except` values, and the
process-wide configuration globals (`PI_TYPE`, `TOWER_STRATEGY`) are threaded
as explicit arguments.  Division is the total division of `ℚ`/`ℝ` (zero
denominators yield zero rather than IEEE infinities/NaNs); theorems that touch
a division edge case are stated so that their content does not depend on that
convention.
-/

/-- Python exception classes raised by the embedded code paths. -/
inductive PyError where
  | valueError
  | indexError
  | typeError
  | notImplementedError
deriving DecidableEq

instance {ε α : Type} [DecidableEq ε] [DecidableEq α] : DecidableEq (Except ε α) := fun a b =>
  match a, b with
  | .error e, .error f =>
      if h : e = f then .isTrue (by rw [h]) else .isFalse (by simp [h])
  | .ok x, .ok y =>
      if h : x = y then .isTrue (by rw [h]) else .isFalse (by simp [h])
  | .error _, .ok _ => .isFalse (fun h => Except.noConfusion h)
  | .ok _, .error _ => .isFalse (fun h => Except.noConfusion h)

/-- Is an `Except` value an error?  (`True` exactly on `Except.error`.) -/
def exceptIsError {ε α : Type} : Except ε α → Bool
  | .error _ => true
  | .ok _ => false

/-- A tensor: a shape (list of dimension sizes) together with row-major flat
data.  This models the TensorFlow `Tensor`/`ndarray` values flowing through
`compute_pi_tracenorm`. -/
structure Tensor where
  shape : List ℕ
  data : List ℚ
deriving DecidableEq

/-- The rank of a tensor, `len(cov.shape)` in the source. -/
def Tensor.rank (t : Tensor) : ℕ := t.shape.length

/-- The standard matrix trace of a rank-2 tensor (`math_ops.trace`): the sum of
the diagonal entries `data[i * ncols + i]`. -/
def Tensor.matTrace (t : Tensor) : ℚ :=
  let m := t.shape.getD 0 0
  let n := t.shape.getD 1 0
  (((List.range (min m n)).map (fun i => t.data.getD (i * n + i) 0))).sum

/-- The inner `_trace` of `compute_pi_tracenorm`: sum of entries for a rank-1
(diagonal) tensor, standard matrix trace for a rank-2 tensor, and a
`ValueError` for any other rank. -/
def Tensor.trace (t : Tensor) : Except PyError ℚ :=
  if t.rank = 1 then .ok t.data.sum
  else if t.rank = 2 then .ok t.matTrace
  else .error .valueError

/-- `cov.shape.as_list()[0]`: the leading dimension; an `IndexError` on a
rank-0 tensor. -/
def Tensor.dim0 (t : Tensor) : Except PyError ℕ :=
  match t.shape with
  | [] => .error .indexError
  | d :: _ => .ok d

/-- The radicand computed inside `compute_pi_tracenorm`:
`left_norm / right_norm` with `left_norm = trace(left) * right.shape[0]` and
`right_norm = trace(right) * left.shape[0]`, in the evaluation order of the
source. -/
def compute_pi_tracenorm_sq (left_cov right_cov : Tensor) : Except PyError ℚ :=
  match left_cov.trace with
  | .error e => .error e
  | .ok tl =>
    match right_cov.dim0 with
    | .error e => .error e
    | .ok dr =>
      match right_cov.trace with
      | .error e => .error e
      | .ok tr =>
        match left_cov.dim0 with
        | .error e => .error e
        | .ok dl => .ok ((tl * (dr : ℚ)) / (tr * (dl : ℚ)))

/-- `compute_pi_tracenorm(left_cov, right_cov)`:
`sqrt(left_norm / right_norm)`. -/
noncomputable def compute_pi_tracenorm (left_cov right_cov : Tensor) : Except PyError ℝ :=
  match compute_pi_tracenorm_sq left_cov right_cov with
  | .error e => .error e
  | .ok q => .ok (Real.sqrt (q : ℝ))

/-- The module constant `PI_OFF_NAME`. -/
def PI_OFF_NAME : String := "off"

/-- The module constant `PI_TRACENORM_NAME`. -/
def PI_TRACENORM_NAME : String := "tracenorm"

/-- The module global `PI_TYPE` (its default value). -/
def PI_TYPE : String := PI_TRACENORM_NAME

/-- `compute_pi_adjusted_damping(left_cov, right_cov, damping)` with the global
`PI_TYPE` threaded explicitly.  The Python function has no `else` branch: a
`PI_TYPE` outside the two recognized names falls off the end and returns
`None`, modelled by `Except.ok none`. -/
noncomputable def compute_pi_adjusted_damping (pi_type : String) (left_cov right_cov : Tensor)
    (damping : ℝ) : Except PyError (Option (ℝ × ℝ)) :=
  if pi_type = PI_TRACENORM_NAME then
    match compute_pi_tracenorm left_cov right_cov with
    | .error e => .error e
    | .ok pi => .ok (some (damping * pi, damping / pi))
  else if pi_type = PI_OFF_NAME then
    .ok (some (damping, damping))
  else
    .ok none

/-- The scaled identity matrix `c * I_m` as a rank-2 tensor of shape
`[m, m]`. -/
def identityScaled (c : ℚ) (m : ℕ) : Tensor :=
  ⟨[m, m], (List.range (m * m)).map (fun k => if k / m = k % m then c else 0)⟩

/-!  Kronecker-product block family (`KroneckerProductFB` and subclasses). -/

/-- Modelled from the spec: `utils.kronecker_product`, the Kronecker product
primitive of the host array library (its source is outside this module).  The
spec describes the block as `c · kron(InputFactorCov, OutputFactorCov)`, the
standard Kronecker product, which is Mathlib's `Matrix.kroneckerMap (· * ·)`. -/
def kronecker_product {m n p q : ℕ} (A : Matrix (Fin m) (Fin n) ℚ)
    (B : Matrix (Fin p) (Fin q) ℚ) : Matrix (Fin m × Fin p) (Fin n × Fin q) ℚ :=
  Matrix.kroneckerMap (· * ·) A B

/-- `KroneckerProductFB._renorm_coeff`: the base class default, `1.0`. -/
def KroneckerProductFB.renorm_coeff : ℚ := 1

/-- `ConvKFCBasicFB._renorm_coeff`: `self._num_locations`. -/
def ConvKFCBasicFB.renorm_coeff (num_locations : ℕ) : ℚ := num_locations

/-- `FullyConnectedMultiIndepFB._renorm_coeff`: `float(self._num_uses)`. -/
def FullyConnectedMultiIndepFB.renorm_coeff (num_uses : ℕ) : ℚ := num_uses

/-- `ConvKFCBasicMultiIndepFB._renorm_coeff`:
`self._num_locations * self._num_uses`. -/
def ConvKFCBasicMultiIndepFB.renorm_coeff (num_locations num_uses : ℕ) : ℚ :=
  (num_locations : ℚ) * (num_uses : ℚ)

/-- `KroneckerProductFB.full_fisher_block()`:
`self._renorm_coeff * utils.kronecker_product(left_factor, right_factor)`,
where `left_factor`/`right_factor` are the input/output factor covariances.
The instance field `_renorm_coeff` is threaded as an argument. -/
def KroneckerProductFB.full_fisher_block {m n : ℕ} (renorm_coeff : ℚ)
    (left_factor : Matrix (Fin m) (Fin m) ℚ) (right_factor : Matrix (Fin n) (Fin n) ℚ) :
    Matrix (Fin m × Fin n) (Fin m × Fin n) ℚ :=
  renorm_coeff • kronecker_product left_factor right_factor

/-- `full_fisher_block` as inherited (unchanged) by `FullyConnectedKFACBasicFB`,
which does not override `_renorm_coeff`. -/
def FullyConnectedKFACBasicFB.full_fisher_block {m n : ℕ}
    (left_factor : Matrix (Fin m) (Fin m) ℚ) (right_factor : Matrix (Fin n) (Fin n) ℚ) :
    Matrix (Fin m × Fin n) (Fin m × Fin n) ℚ :=
  KroneckerProductFB.full_fisher_block KroneckerProductFB.renorm_coeff left_factor right_factor

/-- `full_fisher_block` as inherited by `ConvKFCBasicFB`, whose
`_renorm_coeff` is `self._num_locations`. -/
def ConvKFCBasicFB.full_fisher_block {m n : ℕ} (num_locations : ℕ)
    (left_factor : Matrix (Fin m) (Fin m) ℚ) (right_factor : Matrix (Fin n) (Fin n) ℚ) :
    Matrix (Fin m × Fin n) (Fin m × Fin n) ℚ :=
  KroneckerProductFB.full_fisher_block (ConvKFCBasicFB.renorm_coeff num_locations)
    left_factor right_factor

/-- `full_fisher_block` as inherited by `FullyConnectedMultiIndepFB`, whose
`_renorm_coeff` is `float(self._num_uses)`. -/
def FullyConnectedMultiIndepFB.full_fisher_block {m n : ℕ} (num_uses : ℕ)
    (left_factor : Matrix (Fin m) (Fin m) ℚ) (right_factor : Matrix (Fin n) (Fin n) ℚ) :
    Matrix (Fin m × Fin n) (Fin m × Fin n) ℚ :=
  KroneckerProductFB.full_fisher_block (FullyConnectedMultiIndepFB.renorm_coeff num_uses)
    left_factor right_factor

/-- `full_fisher_block` as inherited by `ConvKFCBasicMultiIndepFB`, whose
`_renorm_coeff` is `self._num_locations * self._num_uses`. -/
def ConvKFCBasicMultiIndepFB.full_fisher_block {m n : ℕ} (num_locations num_uses : ℕ)
    (left_factor : Matrix (Fin m) (Fin m) ℚ) (right_factor : Matrix (Fin n) (Fin n) ℚ) :
    Matrix (Fin m × Fin n) (Fin m × Fin n) ℚ :=
  KroneckerProductFB.full_fisher_block
    (ConvKFCBasicMultiIndepFB.renorm_coeff num_locations num_uses) left_factor right_factor

/-!  `num_conv_locations` (C7). -/

/-- `num_conv_locations(input_shape, strides)`:
`np.prod(input_shape[1:-1]) // np.prod(strides)`, with a `None` strides
argument giving divisor 1.  `input_shape[1:-1]` drops the leading batch and
trailing channel dimensions; `//` is integer floor division (`Nat.div`). -/
def num_conv_locations (input_shape : List ℕ) (strides : Option (List ℕ)) : ℕ :=
  let spatial_input_locations := ((input_shape.drop 1).dropLast).prod
  let spatial_strides_divisor :=
    match strides with
    | none => 1
    | some s => s.prod
  spatial_input_locations / spatial_strides_divisor

/-!  Depthwise convolution filter adapters (C8). -/

/-- A 4-D convolution filter: dimension sizes
`[height, width, in_channels, out_channels]` (for a depthwise filter the
fourth dimension is the channel multiplier) plus an entry function on flat
indices.  Entries outside the dimension bounds are irrelevant junk. -/
structure Filter4 where
  height : ℕ
  width : ℕ
  in_channels : ℕ
  out_channels : ℕ
  entry : ℕ → ℕ → ℕ → ℕ → ℚ

/-- One element of the `results` list built by
`depthwise_conv2d_filter_to_conv2d_filter`: the slice of in-channel `i`
zero-padded (along the in-channel axis) so it affects channel `i` alone. -/
def depthwise_block (f : Filter4) (i : ℕ) : ℕ → ℕ → ℕ → ℕ → ℚ :=
  fun x y j k => if j = i then f.entry x y i k else 0

/-- `depthwise_conv2d_filter_to_conv2d_filter(filter)`: concatenates the
per-in-channel zero-padded blocks along the out-channel axis, producing a
`[height, width, in_channels, in_channels * channel_multiplier]` filter.  The
out-channel index `o` addresses block `o / channel_multiplier` at inner index
`o % channel_multiplier`. -/
def depthwise_conv2d_filter_to_conv2d_filter (f : Filter4) : Filter4 :=
  { height := f.height
    width := f.width
    in_channels := f.in_channels
    out_channels := f.in_channels * f.out_channels
    entry := fun x y j o =>
      depthwise_block f (o / f.out_channels) x y j (o % f.out_channels) }

/-- `conv2d_filter_to_depthwise_conv2d_filter(filter)`: raises a `ValueError`
unless `out_channels` is evenly divisible by `in_channels`; otherwise reshapes
the out-channel axis into `(in_channels, channel_multiplier)` and keeps only
the diagonal in-channel slices: entry `(x, y, i, k)` of the result is entry
`(x, y, i, i * channel_multiplier + k)` of the input. -/
def conv2d_filter_to_depthwise_conv2d_filter (f : Filter4) : Except PyError Filter4 :=
  if f.out_channels % f.in_channels = 0 then
    let channel_multiplier := f.out_channels / f.in_channels
    .ok { height := f.height
          width := f.width
          in_channels := f.in_channels
          out_channels := channel_multiplier
          entry := fun x y i k => f.entry x y i (i * channel_multiplier + k) }
  else .error .valueError

/-!  `FullyConnectedSeriesFB` (C4, C5, C6). -/

/-- The `SeriesFBApproximation` enum. -/
inductive SeriesFBApproximation where
  | option1
  | option2
deriving DecidableEq

/-- Which auxiliary quantities `FullyConnectedSeriesFB.register_matpower`
registers on the two factors on success. -/
inductive RegisteredQuants where
  | option1quants
  | option2quants
deriving DecidableEq

/-- `FullyConnectedSeriesFB.register_matpower(exp)`: raises
`NotImplementedError` for any exponent other than `-1`; otherwise registers
the option-1 or option-2 quantities on both factors.  (The source's final
`else: raise ValueError` branch is unreachable for values of the
two-element enum and so has no counterpart here.) -/
def FullyConnectedSeriesFB.register_matpower (option : SeriesFBApproximation) (exp : ℚ) :
    Except PyError RegisteredQuants :=
  if exp ≠ -1 then .error .notImplementedError
  else
    match option with
    | .option1 => .ok .option1quants
    | .option2 => .ok .option2quants

/-- The decay kernel `gamma` defined inside
`FullyConnectedSeriesFB.multiply_matpower` (Option 1), with `T` the number of
time-steps:  `gamma(x) = (1-x)**2 / (T*(1-x**2) - 2*x*(1-x**T))`. -/
def FullyConnectedSeriesFB.gamma (T : ℕ) (x : ℚ) : ℚ :=
  (1 - x) ^ 2 / (T * (1 - x ^ 2) - 2 * x * (1 - x ^ T))

/-- The Option 1 quantities obtained from
`get_option1quants` on the input (`A`) and output (`G`) factors. -/
structure Option1Quants (a g : ℕ) where
  L_A : Matrix (Fin a) (Fin a) ℚ
  psi_A : Fin a → ℚ
  L_G : Matrix (Fin g) (Fin g) ℚ
  psi_G : Fin g → ℚ

/-- The Option 2 quantities obtained from
`get_option2quants` on the input (`A`) and output (`G`) factors. -/
structure Option2Quants (a g : ℕ) where
  P_A : Matrix (Fin a) (Fin a) ℚ
  K_A : Matrix (Fin a) (Fin a) ℚ
  mu_A : Fin a → ℚ
  P_G : Matrix (Fin g) (Fin g) ℚ
  K_G : Matrix (Fin g) (Fin g) ℚ
  mu_G : Fin g → ℚ

/-- The Option 1 body of `FullyConnectedSeriesFB.multiply_matpower`, acting on
the already-transposed matrix `Z` (row index = output side `G`):
`Y = gamma(psi_G psi_A^T)` elementwise; `Z ← L_G^T Z L_A`; `Z ← Z .* Y`;
`Z ← L_G Z L_A^T`. -/
def option1_apply {a g : ℕ} (T : ℕ) (q : Option1Quants a g)
    (Z : Matrix (Fin g) (Fin a) ℚ) : Matrix (Fin g) (Fin a) ℚ :=
  let Y : Matrix (Fin g) (Fin a) ℚ :=
    Matrix.of fun i j => FullyConnectedSeriesFB.gamma T (q.psi_G i * q.psi_A j)
  let Z1 := q.L_Gᵀ * Z * q.L_A
  let Z2 : Matrix (Fin g) (Fin a) ℚ := Matrix.of fun i j => Z1 i j * Y i j
  q.L_G * Z2 * q.L_Aᵀ

/-- The elementwise denominator of the Option 2 body after the zero guard:
`tmp = 1 - mu_G mu_A^T` followed by
`tmp += 1.0 * cast(equal(tmp, 0.0))`, i.e. every exactly-zero entry is
replaced by `1` before the division. -/
def option2_tmp {a g : ℕ} (q : Option2Quants a g) : Matrix (Fin g) (Fin a) ℚ :=
  Matrix.of fun i j =>
    (1 - q.mu_G i * q.mu_A j) + (if (1 - q.mu_G i * q.mu_A j) = 0 then 1 else 0)

/-- The Option 2 body of `FullyConnectedSeriesFB.multiply_matpower` before the
final `1/T` normalization, acting on the already-transposed matrix `Z`:
`Z ← Z - P_G Z P_A^T`; `Z ← K_G^T Z K_A`; `Z ← Z ./ tmp`;
`Z ← K_G Z K_A^T`; `Z ← Z - P_G^T Z P_A`. -/
def option2_prenorm {a g : ℕ} (q : Option2Quants a g)
    (Z : Matrix (Fin g) (Fin a) ℚ) : Matrix (Fin g) (Fin a) ℚ :=
  let Z1 := Z - q.P_G * Z * q.P_Aᵀ
  let Z2 := q.K_Gᵀ * Z1 * q.K_A
  let Z3 : Matrix (Fin g) (Fin a) ℚ := Matrix.of fun i j => Z2 i j / option2_tmp q i j
  let Z4 := q.K_G * Z3 * q.K_Aᵀ
  Z4 - q.P_Gᵀ * Z4 * q.P_A

/-- The full Option 2 body including the final `Z /= cast(num_timesteps)`
rescaling. -/
def option2_apply {a g : ℕ} (T : ℕ) (q : Option2Quants a g)
    (Z : Matrix (Fin g) (Fin a) ℚ) : Matrix (Fin g) (Fin a) ℚ :=
  Matrix.of fun i j => option2_prenorm q Z i j / (T : ℚ)

/-- `FullyConnectedSeriesFB.multiply_matpower(vector, exp)`: raises
`NotImplementedError` for any exponent other than `-1`; otherwise transposes
the reshaped vector to the derivation's orientation, applies the Option 1 or
Option 2 inverse, and transposes back.  The factor quantities (fetched from
the external factors in the source) are threaded as arguments. -/
def FullyConnectedSeriesFB.multiply_matpower {a g : ℕ} (T : ℕ)
    (option : SeriesFBApproximation) (exp : ℚ) (q1 : Option1Quants a g)
    (q2 : Option2Quants a g) (V : Matrix (Fin a) (Fin g) ℚ) :
    Except PyError (Matrix (Fin a) (Fin g) ℚ) :=
  if exp ≠ -1 then .error .notImplementedError
  else
    match option with
    | .option1 => .ok ((option1_apply T q1 Vᵀ)ᵀ)
    | .option2 => .ok ((option2_apply T q2 Vᵀ)ᵀ)

/-!  Tower/use data normalization (C9). -/

/-- A Python value holding tensor data as it flows through `_process_data`:
either a raw `Tensor`, a Python list/tuple of such values, or a
`utils.PartitionedTensor` wrapping a list of values. -/
inductive TVal (τ : Type) where
  | tensor (t : τ)
  | listOf (ts : List (TVal τ))
  | partitioned (ts : List (TVal τ))

/-- `InputOutputMultiTower._process_data(grads_list)` with the global
`fisher_factors.TOWER_STRATEGY` threaded explicitly.  `inputs` is the list
over towers (`self._inputs`); `grads_list` is a list over sources of lists
over towers.  "concat" merges each tower list into one `PartitionedTensor`;
"separate" leaves the data unchanged (list-to-tuple conversion is a no-op
here); anything else raises a `ValueError`. -/
def InputOutputMultiTower.process_data {τ : Type} (strategy : String)
    (inputs : List (TVal τ)) (grads_list : List (List (TVal τ))) :
    Except PyError (List (TVal τ) × List (List (TVal τ))) :=
  if strategy = "concat" then
    .ok ([TVal.partitioned inputs], grads_list.map (fun grads => [TVal.partitioned grads]))
  else if strategy = "separate" then
    .ok (inputs, grads_list)
  else
    .error .valueError

/-- `len(v)` / iteration over a tower entry in the multi-use `_process_data`:
succeeds on a Python list, raises a `TypeError` on a raw tensor (tensors are
not iterable at graph-construction time). -/
def TVal.asUsesList {τ : Type} : TVal τ → Except PyError (List (TVal τ))
  | .listOf ts => .ok ts
  | _ => .error .typeError

/-- The inputs half of `InputOutputMultiTowerMultiUse._process_data`.  If the
first tower entry is a list (per-use format): infer `num_uses` from its
length, check it against the `num_uses` constructor argument, check
consistency across towers, then apply the tower strategy ("concat" reverses
the tower/use indices, flattens use-major and wraps everything in one
`PartitionedTensor`; "separate" wraps each tower's use list; anything else
raises `ValueError`).  If the first tower entry is a raw tensor (uses folded
into the batch dimension), the data passes through untouched.  Returns the
transformed inputs and the updated `num_uses`. -/
def InputOutputMultiTowerMultiUse.process_inputs {τ : Type} (strategy : String)
    (num_uses : Option ℕ) (inputs : List (TVal τ)) :
    Except PyError (List (TVal τ) × Option ℕ) :=
  match inputs with
  | [] => .error .indexError
  | first :: _ =>
    match first with
    | .listOf first_uses =>
      let n := first_uses.length
      if (match num_uses with | some u => u != n | none => false) then
        .error .valueError
      else
        match inputs.mapM TVal.asUsesList with
        | .error e => .error e
        | .ok uses =>
          if ¬ (uses.all (fun input_ => input_.length = n)) then
            .error .valueError
          else if strategy = "concat" then
            .ok ([TVal.partitioned uses.transpose.flatten], some n)
          else if strategy = "separate" then
            .ok (uses.map (fun input_ => TVal.partitioned input_), some n)
          else
            .error .valueError
    | _ => .ok (inputs, num_uses)

/-- The grads half of `InputOutputMultiTowerMultiUse._process_data`, the
analogous processing of the list over sources of lists over towers, keyed on
whether `grads_list[0][0]` is a list. -/
def InputOutputMultiTowerMultiUse.process_grads {τ : Type} (strategy : String)
    (num_uses : Option ℕ) (grads_list : List (List (TVal τ))) :
    Except PyError (List (List (TVal τ)) × Option ℕ) :=
  match grads_list with
  | [] => .error .indexError
  | first_source :: _ =>
    match first_source with
    | [] => .error .indexError
    | first_grad :: _ =>
      match first_grad with
      | .listOf first_uses =>
        let n := first_uses.length
        if (match num_uses with | some u => u != n | none => false) then
          .error .valueError
        else
          match grads_list.mapM (fun grads => grads.mapM TVal.asUsesList) with
          | .error e => .error e
          | .ok gl =>
            if ¬ (gl.all (fun grads => grads.all (fun grad => grad.length = n))) then
              .error .valueError
            else if strategy = "concat" then
              .ok (gl.map (fun grads => [TVal.partitioned grads.transpose.flatten]), some n)
            else if strategy = "separate" then
              .ok (gl.map (fun grads => grads.map (fun grad => TVal.partitioned grad)), some n)
            else
              .error .valueError
      | _ => .ok (grads_list, num_uses)

/-- `InputOutputMultiTowerMultiUse._process_data(grads_list)`: processes the
inputs, then the grads (with the possibly-updated `num_uses`), and finally
raises a `ValueError` if `num_uses` could still not be determined. -/
def InputOutputMultiTowerMultiUse.process_data {τ : Type} (strategy : String)
    (num_uses : Option ℕ) (inputs : List (TVal τ)) (grads_list : List (List (TVal τ))) :
    Except PyError (List (TVal τ) × List (List (TVal τ)) × ℕ) :=
  match InputOutputMultiTowerMultiUse.process_inputs strategy num_uses inputs with
  | .error e => .error e
  | .ok (inputs2, n1) =>
    match InputOutputMultiTowerMultiUse.process_grads strategy n1 grads_list with
    | .error e => .error e
    | .ok (grads_list2, n2) =>
      match n2 with
      | none => .error .valueError
      | some n => .ok (inputs2, grads_list2, n)

/-!  Theorems. -/

theorem getD_map_range (f : ℕ → ℚ) {N k : ℕ} (hk : k < N) :
    ((List.range N).map f).getD k 0 = f k := by
  rw [List.getD_eq_getElem?_getD, List.getElem?_map, List.getElem?_range hk]
  rfl

theorem trace_identityScaled (c : ℚ) (m : ℕ) :
    (identityScaled c m).trace = .ok ((m : ℚ) * c) := by
  have hrank : (identityScaled c m).rank = 2 := rfl
  rw [Tensor.trace, hrank]
  norm_num
  rw [Tensor.matTrace]
  have hdata : ∀ i ∈ List.range (min m m),
      (identityScaled c m).data.getD (i * m + i) 0 = c := by
    intro i hi
    have him : i < m := by simpa using hi
    have hlt : i * m + i < m * m := by
      calc i * m + i < i * m + m := by omega
      _ = (i + 1) * m := by ring
      _ ≤ m * m := Nat.mul_le_mul_right m him
    show ((List.range (m * m)).map
        (fun k => if k / m = k % m then c else 0)).getD (i * m + i) 0 = c
    rw [getD_map_range _ hlt]
    have hm : 0 < m := by omega
    have hdiv : (i * m + i) / m = i := by
      rw [Nat.add_comm, Nat.add_mul_div_right _ _ hm, Nat.div_eq_of_lt him]
      omega
    have hmod : (i * m + i) % m = i := by
      rw [Nat.add_comm, Nat.add_mul_mod_self_right, Nat.mod_eq_of_lt him]
    simp [hdiv, hmod]
  have h0 : (identityScaled c m).shape.getD 0 0 = m := rfl
  have h1 : (identityScaled c m).shape.getD 1 0 = m := rfl
  simp only [h0, h1]
  rw [List.map_congr_left hdata, List.map_const', List.sum_replicate]
  simp [Nat.min_self, nsmul_eq_mul]

/-- C2 (amended): `compute_pi_tracenorm(A, B)` returns
`sqrt((trace(A)*n) / (trace(B)*m))` for `A` of dimension `m` and `B` of
dimension `n` (trace of a rank-1 array = sum of entries, of a rank-2 array =
matrix trace); it errors when either argument has rank outside `{1, 2}`; and
on `A = c*I_m`, `B = I_n` it returns `sqrt(c)` for every `m, n ≥ 1`. -/
theorem C2_pi_tracenorm_spec :
    (∀ (l r : Tensor) (ta tr : ℚ) (m n : ℕ),
      l.trace = .ok ta → r.dim0 = .ok n → r.trace = .ok tr → l.dim0 = .ok m →
      compute_pi_tracenorm l r = .ok (Real.sqrt (((ta * n) / (tr * m) : ℚ) : ℝ))) ∧
    (∀ l r : Tensor,
      ((l.rank ≠ 1 ∧ l.rank ≠ 2) ∨ (r.rank ≠ 1 ∧ r.rank ≠ 2)) →
      exceptIsError (compute_pi_tracenorm l r) = true) ∧
    (∀ (c : ℚ) (m n : ℕ), 1 ≤ m → 1 ≤ n →
      compute_pi_tracenorm (identityScaled c m) (identityScaled 1 n) =
        .ok (Real.sqrt (c : ℝ))) := by
  refine ⟨?_, ?_, ?_⟩
  · intro l r ta tr m n h1 h2 h3 h4
    simp [compute_pi_tracenorm, compute_pi_tracenorm_sq, h1, h2, h3, h4]
  · intro l r h
    rcases h with ⟨h1, h2⟩ | ⟨h1, h2⟩
    · have hl : l.trace = .error .valueError := by
        rw [Tensor.trace, if_neg h1, if_neg h2]
      simp [compute_pi_tracenorm, compute_pi_tracenorm_sq, hl, exceptIsError]
    · have hr : r.trace = .error .valueError := by
        rw [Tensor.trace, if_neg h1, if_neg h2]
      cases hlt : l.trace with
      | error e => simp [compute_pi_tracenorm, compute_pi_tracenorm_sq, hlt, exceptIsError]
      | ok tl =>
        cases hd : r.dim0 with
        | error e =>
          simp [compute_pi_tracenorm, compute_pi_tracenorm_sq, hlt, hd, exceptIsError]
        | ok dr =>
          simp [compute_pi_tracenorm, compute_pi_tracenorm_sq, hlt, hd, hr, exceptIsError]
  · intro c m n hm hn
    have hdl : (identityScaled c m).dim0 = .ok m := rfl
    have hdr : (identityScaled 1 n).dim0 = .ok n := rfl
    have hm0 : (m : ℚ) ≠ 0 := Nat.cast_ne_zero.mpr (by omega)
    have hn0 : (n : ℚ) ≠ 0 := Nat.cast_ne_zero.mpr (by omega)
    have hval : ((m : ℚ) * c) * (n : ℚ) / ((n : ℚ) * (m : ℚ)) = c := by
      field_simp
      ring
    have hsq : compute_pi_tracenorm_sq (identityScaled c m) (identityScaled 1 n) = .ok c := by
      simp [compute_pi_tracenorm_sq, trace_identityScaled, hdl, hdr, hval]
    simp [compute_pi_tracenorm, hsq]

/-- C2 counterexample: the claim asserts the identity-matrix result for every
`m` and `n`, but at `m = 0` (with `c = 2`, `n = 1`) the computed ratio is
`0/0` and the result is not `sqrt(2)` (the source arithmetic yields `nan`
there; the embedding yields `sqrt 0 = 0`). -/
theorem C2_pi_tracenorm_spec_cex :
    compute_pi_tracenorm (identityScaled 2 0) (identityScaled 1 1) ≠
      Except.ok (Real.sqrt ((2 : ℚ) : ℝ)) := by
  have hsq : compute_pi_tracenorm_sq (identityScaled 2 0) (identityScaled 1 1) = .ok 0 := by
    norm_num [compute_pi_tracenorm_sq, Tensor.trace, Tensor.rank, Tensor.dim0, Tensor.matTrace,
      identityScaled, List.range_succ]
  intro h
  simp only [compute_pi_tracenorm, hsq] at h
  have h2 : Real.sqrt ((0 : ℚ) : ℝ) = Real.sqrt ((2 : ℚ) : ℝ) := by
    exact Except.ok.inj h
  rw [Rat.cast_zero, Real.sqrt_zero] at h2
  have h3 : (0 : ℝ) < Real.sqrt ((2 : ℚ) : ℝ) := Real.sqrt_pos.mpr (by norm_num)
  linarith [h2, h3]

/-- C2 witness: the three parts of `C2_pi_tracenorm_spec` instantiated at
concrete tensors (a 2-vector diagonal and a 1-vector diagonal; `4·I_2` with
`I_3`; a rank-3 tensor). -/
theorem C2_pi_tracenorm_spec_witness :
    compute_pi_tracenorm (Tensor.mk [2] [3, 4]) (Tensor.mk [1] [5]) =
        .ok (Real.sqrt (((7 * (1 : ℕ)) / (5 * (2 : ℕ)) : ℚ) : ℝ)) ∧
    compute_pi_tracenorm (identityScaled 4 2) (identityScaled 1 3) =
        .ok (Real.sqrt ((4 : ℚ) : ℝ)) ∧
    exceptIsError (compute_pi_tracenorm (Tensor.mk [1, 1, 1] [5]) (Tensor.mk [1] [1])) =
        true := by
  refine ⟨?_, ?_, ?_⟩
  · refine C2_pi_tracenorm_spec.1 _ _ 7 5 2 1 ?_ ?_ ?_ ?_
    · norm_num [Tensor.trace, Tensor.rank]
    · rfl
    · norm_num [Tensor.trace, Tensor.rank]
    · rfl
  · exact C2_pi_tracenorm_spec.2.2 4 2 3 (by decide) (by decide)
  · exact C2_pi_tracenorm_spec.2.1 _ _ (Or.inl ⟨by decide, by decide⟩)

/-- C1 (amended): in "tracenorm" mode, whenever the trace-norm radicand
`left_norm/right_norm` is positive (so that `pi > 0`; true of genuine
covariance pairs with positive traces), `compute_pi_adjusted_damping` returns
`(damping*pi, damping/pi)` whose product is `damping**2`; in "off" mode it
returns `(damping, damping)` whose product is `damping**2` unconditionally. -/
theorem C1_pi_adjusted_damping_product :
    (∀ (l r : Tensor) (d : ℝ) (q : ℚ),
      compute_pi_tracenorm_sq l r = .ok q → 0 < q →
      ∃ dl dr, compute_pi_adjusted_damping PI_TRACENORM_NAME l r d = .ok (some (dl, dr)) ∧
        dl * dr = d ^ 2) ∧
    (∀ (l r : Tensor) (d : ℝ),
      compute_pi_adjusted_damping PI_OFF_NAME l r d = .ok (some (d, d)) ∧ d * d = d ^ 2) := by
  constructor
  · intro l r d q hq hpos
    have hpi : compute_pi_tracenorm l r = .ok (Real.sqrt (q : ℝ)) := by
      simp [compute_pi_tracenorm, hq]
    refine ⟨d * Real.sqrt (q : ℝ), d / Real.sqrt (q : ℝ), ?_, ?_⟩
    · unfold compute_pi_adjusted_damping
      rw [if_pos rfl, hpi]
    · have hs : (0 : ℝ) < Real.sqrt (q : ℝ) := Real.sqrt_pos.mpr (by exact_mod_cast hpos)
      field_simp
      ring
  · intro l r d
    constructor
    · unfold compute_pi_adjusted_damping
      rw [if_neg (by decide), if_pos rfl]
    · ring

/-- C1 counterexample: with a zero left covariance (`diag [0]`), `pi = 0` and
the returned pair in "tracenorm" mode does not multiply to `damping**2 = 1`
(the source arithmetic returns `(0.0, inf)` whose product is `nan`; the
embedding returns `(0, 0)`) — so the product invariant fails for some
covariance pair, refuting the unconditional claim. -/
theorem C1_pi_adjusted_damping_product_cex :
    compute_pi_adjusted_damping PI_TRACENORM_NAME (Tensor.mk [1] [0]) (Tensor.mk [1] [1]) 1 =
        .ok (some (0, 0)) ∧
    (0 : ℝ) * 0 ≠ (1 : ℝ) ^ 2 := by
  constructor
  · have hsq : compute_pi_tracenorm_sq (Tensor.mk [1] [0]) (Tensor.mk [1] [1]) = .ok 0 := by
      norm_num [compute_pi_tracenorm_sq, Tensor.trace, Tensor.rank, Tensor.dim0]
    have hpi : compute_pi_tracenorm (Tensor.mk [1] [0]) (Tensor.mk [1] [1]) = .ok 0 := by
      simp [compute_pi_tracenorm, hsq]
    unfold compute_pi_adjusted_damping
    rw [if_pos rfl, hpi]
    norm_num
  · norm_num

/-- C1 witness: the tracenorm part of `C1_pi_adjusted_damping_product` at
`left = diag [2]`, `right = diag [1]`, `damping = 1` (radicand `2 > 0`), and
the off part at the same tensors. -/
theorem C1_pi_adjusted_damping_product_witness :
    (∃ dl dr,
      compute_pi_adjusted_damping PI_TRACENORM_NAME (Tensor.mk [1] [2]) (Tensor.mk [1] [1]) 1 =
        .ok (some (dl, dr)) ∧ dl * dr = (1 : ℝ) ^ 2) ∧
    compute_pi_adjusted_damping PI_OFF_NAME (Tensor.mk [1] [2]) (Tensor.mk [1] [1]) 1 =
        .ok (some (1, 1)) ∧ (1 : ℝ) * 1 = (1 : ℝ) ^ 2 := by
  constructor
  · refine C1_pi_adjusted_damping_product.1 _ _ 1 2 ?_ ?_
    · norm_num [compute_pi_tracenorm_sq, Tensor.trace, Tensor.rank, Tensor.dim0]
    · norm_num
  · exact C1_pi_adjusted_damping_product.2 (Tensor.mk [1] [2]) (Tensor.mk [1] [1]) 1

/-- C10: for any `PI_TYPE` other than "tracenorm" and "off",
`compute_pi_adjusted_damping` raises nothing and returns no pair — it falls
through and yields Python `None` (`Except.ok none`). -/
theorem C10_pi_type_fallthrough :
    ∀ (pi_type : String) (l r : Tensor) (d : ℝ),
      pi_type ≠ PI_TRACENORM_NAME → pi_type ≠ PI_OFF_NAME →
      compute_pi_adjusted_damping pi_type l r d = .ok none := by
  intro pt l r d h1 h2
  unfold compute_pi_adjusted_damping
  rw [if_neg h1, if_neg h2]

/-- C10 witness: `C10_pi_type_fallthrough` at the concrete mode "invalid". -/
theorem C10_pi_type_fallthrough_witness :
    compute_pi_adjusted_damping "invalid" (Tensor.mk [1] [1]) (Tensor.mk [1] [1]) 1 =
      .ok none :=
  C10_pi_type_fallthrough "invalid" _ _ 1 (by decide) (by decide)

/-- C3: every Kronecker-product block variant's `full_fisher_block()` equals
`c * kron(input_factor_cov, output_factor_cov)` with `c = 1` for
`FullyConnectedKFACBasicFB`, `c = num_locations` for `ConvKFCBasicFB`,
`c = num_uses` for `FullyConnectedMultiIndepFB`, and
`c = num_locations * num_uses` for `ConvKFCBasicMultiIndepFB`. -/
theorem C3_full_fisher_block_renorm :
    ∀ (m n num_locations num_uses : ℕ) (A : Matrix (Fin m) (Fin m) ℚ)
      (B : Matrix (Fin n) (Fin n) ℚ),
      FullyConnectedKFACBasicFB.full_fisher_block A B = (1 : ℚ) • kronecker_product A B ∧
      ConvKFCBasicFB.full_fisher_block num_locations A B =
        (num_locations : ℚ) • kronecker_product A B ∧
      FullyConnectedMultiIndepFB.full_fisher_block num_uses A B =
        (num_uses : ℚ) • kronecker_product A B ∧
      ConvKFCBasicMultiIndepFB.full_fisher_block num_locations num_uses A B =
        ((num_locations : ℚ) * (num_uses : ℚ)) • kronecker_product A B := by
  intro m n nl nu A B
  refine ⟨rfl, rfl, rfl, rfl⟩

/-- C6: the Option 1 decay kernel of `FullyConnectedSeriesFB` is
`gamma(x) = (1-x)^2 / (T*(1-x^2) - 2*x*(1-x^T))`, and `gamma(0) = 1/T` for
every number of time-steps `T`. -/
theorem C6_gamma_kernel :
    (∀ (T : ℕ) (x : ℚ),
      FullyConnectedSeriesFB.gamma T x =
        (1 - x) ^ 2 / ((T : ℚ) * (1 - x ^ 2) - 2 * x * (1 - x ^ T))) ∧
    (∀ T : ℕ, FullyConnectedSeriesFB.gamma T 0 = 1 / (T : ℚ)) := by
  constructor
  · intro T x
    rfl
  · intro T
    cases T with
    | zero => norm_num [FullyConnectedSeriesFB.gamma]
    | succ k => norm_num [FullyConnectedSeriesFB.gamma]

/-- C7: `num_conv_locations(input_shape, strides)` returns
`prod(spatial_dims) // prod(strides)` with integer floor division, treats
`strides = None` as divisor 1, and in particular maps a length-10 spatial
input with stride 2 to 5 and a length-9 input with stride 2 to 4. -/
theorem C7_num_conv_locations :
    (∀ (input_shape : List ℕ) (strides : List ℕ),
      num_conv_locations input_shape (some strides) =
        ((input_shape.drop 1).dropLast).prod / strides.prod) ∧
    (∀ input_shape : List ℕ,
      num_conv_locations input_shape none = ((input_shape.drop 1).dropLast).prod / 1) ∧
    num_conv_locations [1, 10, 1] (some [2]) = 5 ∧
    num_conv_locations [1, 9, 1] (some [2]) = 4 := by
  refine ⟨fun _ _ => rfl, fun _ => rfl, by decide, by decide⟩

/-- C4: on a `FullyConnectedSeriesFB`, `register_matpower(exp)` and
`multiply_matpower(vector, exp)` raise `NotImplementedError` for every
exponent other than `-1`, and with `exp = -1` neither call raises
(both succeed, for either approximation option). -/
theorem C4_series_inverse_only :
    (∀ (option : SeriesFBApproximation) (exp : ℚ), exp ≠ -1 →
      FullyConnectedSeriesFB.register_matpower option exp = .error .notImplementedError) ∧
    (∀ (a g T : ℕ) (option : SeriesFBApproximation) (exp : ℚ)
      (q1 : Option1Quants a g) (q2 : Option2Quants a g) (V : Matrix (Fin a) (Fin g) ℚ),
      exp ≠ -1 →
      FullyConnectedSeriesFB.multiply_matpower T option exp q1 q2 V =
        .error .notImplementedError) ∧
    (∀ option : SeriesFBApproximation,
      ∃ r, FullyConnectedSeriesFB.register_matpower option (-1) = .ok r) ∧
    (∀ (a g T : ℕ) (option : SeriesFBApproximation) (q1 : Option1Quants a g)
      (q2 : Option2Quants a g) (V : Matrix (Fin a) (Fin g) ℚ),
      ∃ M, FullyConnectedSeriesFB.multiply_matpower T option (-1) q1 q2 V = .ok M) := by
  refine ⟨?_, ?_, ?_, ?_⟩
  · intro option exp h
    unfold FullyConnectedSeriesFB.register_matpower
    rw [if_pos h]
  · intro a g T option exp q1 q2 V h
    unfold FullyConnectedSeriesFB.multiply_matpower
    rw [if_pos h]
  · intro option
    cases option with
    | option1 =>
      refine ⟨.option1quants, ?_⟩
      unfold FullyConnectedSeriesFB.register_matpower
      rw [if_neg (by norm_num)]
    | option2 =>
      refine ⟨.option2quants, ?_⟩
      unfold FullyConnectedSeriesFB.register_matpower
      rw [if_neg (by norm_num)]
  · intro a g T option q1 q2 V
    cases option with
    | option1 =>
      refine ⟨(option1_apply T q1 Vᵀ)ᵀ, ?_⟩
      unfold FullyConnectedSeriesFB.multiply_matpower
      rw [if_neg (by norm_num)]
    | option2 =>
      refine ⟨(option2_apply T q2 Vᵀ)ᵀ, ?_⟩
      unfold FullyConnectedSeriesFB.multiply_matpower
      rw [if_neg (by norm_num)]

/-- C4 witness: `register_matpower`/`multiply_matpower` at the concrete
exponent `2` (rejected) and `-1` (accepted), on 1-dimensional factors. -/
theorem C4_series_inverse_only_witness :
    FullyConnectedSeriesFB.register_matpower .option2 2 = .error .notImplementedError ∧
    FullyConnectedSeriesFB.multiply_matpower 3 .option2 2
      (Option1Quants.mk (a := 1) (g := 1) 0 (fun _ => 0) 0 (fun _ => 0))
      (Option2Quants.mk 0 0 (fun _ => 0) 0 0 (fun _ => 0)) 0 =
      .error .notImplementedError ∧
    (∃ r, FullyConnectedSeriesFB.register_matpower .option2 (-1) = .ok r) ∧
    (∃ M, FullyConnectedSeriesFB.multiply_matpower 3 .option2 (-1)
      (Option1Quants.mk (a := 1) (g := 1) 0 (fun _ => 0) 0 (fun _ => 0))
      (Option2Quants.mk 0 0 (fun _ => 0) 0 0 (fun _ => 0)) 0 = .ok M) := by
  refine ⟨?_, ?_, ?_, ?_⟩
  · exact C4_series_inverse_only.1 .option2 2 (by norm_num)
  · exact C4_series_inverse_only.2.1 1 1 3 .option2 2 _ _ 0 (by norm_num)
  · exact C4_series_inverse_only.2.2.1 .option2
  · exact C4_series_inverse_only.2.2.2 1 1 3 .option2 _ _ 0

/-- C5: in the Option 2 inverse application, every entry of the elementwise
denominator `1 - outer(mu_output, mu_input)` that is exactly zero is replaced
by `1` before the division (so the denominator is never zero), and the final
result is the pre-normalization result rescaled by `1/T`. -/
theorem C5_option2_zero_guard :
    (∀ (a g : ℕ) (q : Option2Quants a g) (i : Fin g) (j : Fin a),
      (1 - q.mu_G i * q.mu_A j = 0 → option2_tmp q i j = 1) ∧ option2_tmp q i j ≠ 0) ∧
    (∀ (a g T : ℕ) (q : Option2Quants a g) (Z : Matrix (Fin g) (Fin a) ℚ),
      option2_apply T q Z = ((T : ℚ))⁻¹ • option2_prenorm q Z) := by
  constructor
  · intro a g q i j
    by_cases h : 1 - q.mu_G i * q.mu_A j = 0
    · constructor
      · intro _
        simp [option2_tmp, h]
      · simp [option2_tmp, h]
    · constructor
      · intro h0
        exact absurd h0 h
      · simp [option2_tmp, h]
  · intro a g T q Z
    ext i j
    simp [option2_apply, Matrix.smul_apply, div_eq_inv_mul]

/-- C5 witness: the zero guard at `mu_G = mu_A = (1)` (where `1 - 1*1 = 0` is
replaced by `1`) and the `1/T` rescaling at `T = 4` on concrete 1×1 data. -/
theorem C5_option2_zero_guard_witness :
    ((1 : ℚ) - 1 * 1 = 0 →
      option2_tmp (Option2Quants.mk (a := 1) (g := 1) 0 0 (fun _ => 1) 0 0 (fun _ => 1)) 0 0 = 1) ∧
    option2_tmp (Option2Quants.mk (a := 1) (g := 1) 0 0 (fun _ => 1) 0 0 (fun _ => 1)) 0 0 ≠ 0 ∧
    option2_apply 4 (Option2Quants.mk (a := 1) (g := 1) 0 0 (fun _ => 1) 0 0 (fun _ => 1)) 0 =
      ((4 : ℚ))⁻¹ • option2_prenorm
        (Option2Quants.mk (a := 1) (g := 1) 0 0 (fun _ => 1) 0 0 (fun _ => 1)) 0 := by
  refine ⟨?_, ?_, ?_⟩
  · exact (C5_option2_zero_guard.1 1 1
      (Option2Quants.mk 0 0 (fun _ => 1) 0 0 (fun _ => 1)) 0 0).1
  · exact (C5_option2_zero_guard.1 1 1
      (Option2Quants.mk 0 0 (fun _ => 1) 0 0 (fun _ => 1)) 0 0).2
  · exact C5_option2_zero_guard.2 1 1 4
      (Option2Quants.mk 0 0 (fun _ => 1) 0 0 (fun _ => 1)) 0

/-- C8: the depthwise→conv2d transform is zero on every off-diagonal
input/output-channel block; composing it with conv2d→depthwise recovers the
original depthwise filter (same dimensions, same entries at all in-range
multiplier indices, for any filter with at least one input channel); and
conv2d→depthwise raises a `ValueError` whenever `out_channels` is not evenly
divisible by `in_channels`. -/
theorem C8_depthwise_filter_roundtrip :
    (∀ (f : Filter4) (x y j o : ℕ), j ≠ o / f.out_channels →
      (depthwise_conv2d_filter_to_conv2d_filter f).entry x y j o = 0) ∧
    (∀ f : Filter4, 0 < f.in_channels →
      ∃ g, conv2d_filter_to_depthwise_conv2d_filter
          (depthwise_conv2d_filter_to_conv2d_filter f) = .ok g ∧
        g.height = f.height ∧ g.width = f.width ∧ g.in_channels = f.in_channels ∧
        g.out_channels = f.out_channels ∧
        ∀ x y i k : ℕ, k < f.out_channels → g.entry x y i k = f.entry x y i k) ∧
    (∀ f : Filter4, f.out_channels % f.in_channels ≠ 0 →
      exceptIsError (conv2d_filter_to_depthwise_conv2d_filter f) = true) := by
  refine ⟨?_, ?_, ?_⟩
  · intro f x y j o h
    simp [depthwise_conv2d_filter_to_conv2d_filter, depthwise_block, h]
  · intro f hc
    have hmod : (f.in_channels * f.out_channels) % f.in_channels = 0 := Nat.mul_mod_right _ _
    have hquot : f.in_channels * f.out_channels / f.in_channels = f.out_channels :=
      Nat.mul_div_cancel_left _ hc
    simp only [conv2d_filter_to_depthwise_conv2d_filter,
      depthwise_conv2d_filter_to_conv2d_filter]
    rw [if_pos hmod]
    refine ⟨_, rfl, rfl, rfl, rfl, hquot, ?_⟩
    intro x y i k hk
    have hm0 : 0 < f.out_channels := lt_of_le_of_lt (Nat.zero_le _) hk
    have hdiv : (i * f.out_channels + k) / f.out_channels = i := by
      rw [Nat.add_comm, Nat.add_mul_div_right _ _ hm0, Nat.div_eq_of_lt hk]
      omega
    have hmod2 : (i * f.out_channels + k) % f.out_channels = k := by
      rw [Nat.add_comm, Nat.add_mul_mod_self_right, Nat.mod_eq_of_lt hk]
    show depthwise_block f
        ((i * (f.in_channels * f.out_channels / f.in_channels) + k) / f.out_channels) x y i
        ((i * (f.in_channels * f.out_channels / f.in_channels) + k) % f.out_channels) =
      f.entry x y i k
    rw [hquot, hdiv, hmod2]
    simp [depthwise_block]
  · intro f h
    rw [conv2d_filter_to_depthwise_conv2d_filter, if_neg h]
    rfl

/-- C8 witness: `C8_depthwise_filter_roundtrip` at a concrete 1×1 depthwise
filter with 2 input channels and multiplier 3 (off-diagonal entry `(0, 4)` is
zero; the roundtrip recovers the filter) and at a 2-in/3-out conv2d filter
(divisibility error). -/
theorem C8_depthwise_filter_roundtrip_witness :
    (depthwise_conv2d_filter_to_conv2d_filter
        (Filter4.mk 1 1 2 3 (fun x y i k => (x : ℚ) + 2 * y + 3 * i + 5 * k))).entry 0 0 0 4 =
      0 ∧
    (∃ g, conv2d_filter_to_depthwise_conv2d_filter
        (depthwise_conv2d_filter_to_conv2d_filter
          (Filter4.mk 1 1 2 3 (fun x y i k => (x : ℚ) + 2 * y + 3 * i + 5 * k))) = .ok g ∧
      g.height = 1 ∧ g.width = 1 ∧ g.in_channels = 2 ∧ g.out_channels = 3 ∧
      ∀ x y i k : ℕ, k < 3 →
        g.entry x y i k = (x : ℚ) + 2 * y + 3 * i + 5 * k) ∧
    exceptIsError (conv2d_filter_to_depthwise_conv2d_filter
      (Filter4.mk 1 1 2 3 (fun x y i k => (x : ℚ) + 2 * y + 3 * i + 5 * k))) = true := by
  refine ⟨?_, ?_, ?_⟩
  · exact C8_depthwise_filter_roundtrip.1
      (Filter4.mk 1 1 2 3 (fun x y i k => (x : ℚ) + 2 * y + 3 * i + 5 * k)) 0 0 0 4 (by decide)
  · exact C8_depthwise_filter_roundtrip.2.1
      (Filter4.mk 1 1 2 3 (fun x y i k => (x : ℚ) + 2 * y + 3 * i + 5 * k)) (by decide)
  · exact C8_depthwise_filter_roundtrip.2.2
      (Filter4.mk 1 1 2 3 (fun x y i k => (x : ℚ) + 2 * y + 3 * i + 5 * k)) (by decide)

theorem process_inputs_error_of_bad_strategy {τ : Type} (strategy : String)
    (num_uses : Option ℕ) (first : List (TVal τ)) (rest : List (TVal τ))
    (h1 : strategy ≠ "concat") (h2 : strategy ≠ "separate") :
    ∃ e, InputOutputMultiTowerMultiUse.process_inputs strategy num_uses
        (TVal.listOf first :: rest) = .error e := by
  simp only [InputOutputMultiTowerMultiUse.process_inputs, if_neg h1, if_neg h2, ite_self]
  split
  · exact ⟨_, rfl⟩
  · split
    · exact ⟨_, rfl⟩
    · exact ⟨_, rfl⟩

theorem process_grads_error_of_bad_strategy {τ : Type} (strategy : String)
    (num_uses : Option ℕ) (first_uses : List (TVal τ)) (grest : List (TVal τ))
    (srest : List (List (TVal τ))) (h1 : strategy ≠ "concat") (h2 : strategy ≠ "separate") :
    ∃ e, InputOutputMultiTowerMultiUse.process_grads strategy num_uses
        ((TVal.listOf first_uses :: grest) :: srest) = .error e := by
  simp only [InputOutputMultiTowerMultiUse.process_grads, if_neg h1, if_neg h2, ite_self]
  split
  · exact ⟨_, rfl⟩
  · split
    · exact ⟨_, rfl⟩
    · exact ⟨_, rfl⟩

/-- C9 (amended): with an aggregation strategy outside {"concat",
"separate"}, `InputOutputMultiTower._process_data` raises a `ValueError` for
every input, and `InputOutputMultiTowerMultiUse._process_data` raises an
error whenever the inputs — or, with single-tensor inputs, the gradients —
arrive in the per-use list format; but when both inputs and gradients arrive
in the folded single-Tensor format with `num_uses` supplied, it returns
successfully without ever consulting the strategy. -/
theorem C9_tower_strategy_validation :
    (∀ (τ : Type) (strategy : String) (inputs : List (TVal τ))
      (grads_list : List (List (TVal τ))),
      strategy ≠ "concat" → strategy ≠ "separate" →
      InputOutputMultiTower.process_data strategy inputs grads_list = .error .valueError) ∧
    (∀ (τ : Type) (strategy : String) (num_uses : Option ℕ) (first : List (TVal τ))
      (rest : List (TVal τ)) (grads_list : List (List (TVal τ))),
      strategy ≠ "concat" → strategy ≠ "separate" →
      ∃ e, InputOutputMultiTowerMultiUse.process_data strategy num_uses
          (TVal.listOf first :: rest) grads_list = .error e) ∧
    (∀ (τ : Type) (strategy : String) (num_uses : Option ℕ) (t : τ)
      (first_uses : List (TVal τ)) (grest : List (TVal τ)) (srest : List (List (TVal τ))),
      strategy ≠ "concat" → strategy ≠ "separate" →
      ∃ e, InputOutputMultiTowerMultiUse.process_data strategy num_uses [TVal.tensor t]
          ((TVal.listOf first_uses :: grest) :: srest) = .error e) ∧
    (∀ (τ : Type) (strategy : String) (n : ℕ) (t u : τ),
      InputOutputMultiTowerMultiUse.process_data strategy (some n) [TVal.tensor t]
          [[TVal.tensor u]] = .ok ([TVal.tensor t], [[TVal.tensor u]], n)) := by
  refine ⟨?_, ?_, ?_, ?_⟩
  · intro τ strategy inputs grads_list h1 h2
    unfold InputOutputMultiTower.process_data
    rw [if_neg h1, if_neg h2]
  · intro τ strategy num_uses first rest grads_list h1 h2
    obtain ⟨e, he⟩ := process_inputs_error_of_bad_strategy strategy num_uses first rest h1 h2
    refine ⟨e, ?_⟩
    simp only [InputOutputMultiTowerMultiUse.process_data, he]
  · intro τ strategy num_uses t first_uses grest srest h1 h2
    obtain ⟨e, he⟩ :=
      process_grads_error_of_bad_strategy strategy num_uses first_uses grest srest h1 h2
    refine ⟨e, ?_⟩
    have hin : InputOutputMultiTowerMultiUse.process_inputs strategy num_uses
        [TVal.tensor t] = .ok ([TVal.tensor t], num_uses) := rfl
    simp only [InputOutputMultiTowerMultiUse.process_data, hin, he]
  · intro τ strategy n t u
    rfl

/-- C9 counterexample: with the unrecognized strategy "invalid" but both
inputs and gradients in the folded single-Tensor format (and `num_uses`
supplied), `InputOutputMultiTowerMultiUse._process_data` raises nothing — it
returns successfully, so the configuration error is not reported for every
input format. -/
theorem C9_tower_strategy_validation_cex :
    ("invalid" : String) ≠ "concat" ∧ ("invalid" : String) ≠ "separate" ∧
    InputOutputMultiTowerMultiUse.process_data (τ := Unit) "invalid" (some 3)
        [TVal.tensor ()] [[TVal.tensor ()]] =
      .ok ([TVal.tensor ()], [[TVal.tensor ()]], 3) := by
  exact ⟨by decide, by decide, rfl⟩

/-- C9 witness: the four parts of `C9_tower_strategy_validation` at the
concrete strategy "invalid", with unit tensors and two-use lists. -/
theorem C9_tower_strategy_validation_witness :
    InputOutputMultiTower.process_data (τ := Unit) "invalid" [TVal.tensor ()]
        [[TVal.tensor ()]] = .error .valueError ∧
    (∃ e, InputOutputMultiTowerMultiUse.process_data (τ := Unit) "invalid" none
        [TVal.listOf [TVal.tensor (), TVal.tensor ()]] [[TVal.tensor ()]] = .error e) ∧
    (∃ e, InputOutputMultiTowerMultiUse.process_data (τ := Unit) "invalid" none
        [TVal.tensor ()] [[TVal.listOf [TVal.tensor (), TVal.tensor ()]]] = .error e) ∧
    InputOutputMultiTowerMultiUse.process_data (τ := Unit) "invalid" (some 2)
        [TVal.tensor ()] [[TVal.tensor ()]] =
      .ok ([TVal.tensor ()], [[TVal.tensor ()]], 2) := by
  refine ⟨?_, ?_, ?_, ?_⟩
  · exact C9_tower_strategy_validation.1 Unit "invalid" _ _ (by decide) (by decide)
  · exact C9_tower_strategy_validation.2.1 Unit "invalid" none
      [TVal.tensor (), TVal.tensor ()] [] [[TVal.tensor ()]] (by decide) (by decide)
  · exact C9_tower_strategy_validation.2.2.1 Unit "invalid" none ()
      [TVal.tensor (), TVal.tensor ()] [] [] (by decide) (by decide)
  · exact C9_tower_strategy_validation.2.2.2 Unit "invalid" 2 () ()
